import Mathlib

/-!
Shallow embedding of the HouseSprinkler scheduling/queueing engine
(repository pascal-fb-martin/HouseSprinkler), written from the C sources
under src/. Each definition mirrors one C function or data structure and
names it. Wall-clock times are modelled as `Int` seconds; C integer
division and modulo are `Int.tdiv` / `Int.tmod` (truncation toward zero,
as in C). Results of the C library functions `localtime` and `mktime`
are passed in as explicit arguments (a local-time oracle), since they
are external to the repository.
-/

/- ================================================================
   Zone module (src/housesprinkler_zone.c)
   ================================================================ -/

/-- A watering zone as loaded from the configuration
(`SprinklerZone` in src/housesprinkler_zone.c): name, pulse and pause
durations, the manual-only flag, and the discovered control server
(`server` pointer: `hasServer` models it being non-null, `serverUrl`
its `url` field). -/
structure SprinklerZone where
  name : String
  pulse : Int
  pause : Int
  manual : Bool
  hasServer : Bool
  serverUrl : String
  deriving DecidableEq

/-- One activation queue entry (`SprinklerQueue` in
src/housesprinkler_zone.c): the zone index, the remaining runtime in
seconds and the wall-clock time of the next allowed pulse start. The
live queue is the prefix `Queue[0 .. QueueNext-1]` of the C array,
modelled as a list. -/
structure SprinklerQueueEntry where
  zone : Nat
  runtime : Int
  nexton : Int
  deriving DecidableEq

/-- Embedding of `housesprinkler_zone_search`: index of the zone with
the given name, scanning in order (C returns -1 when absent, modelled
as `none`). -/
def housesprinkler_zone_search (zones : List SprinklerZone) (name : String) :
    Option Nat :=
  zones.findIdx? (fun z => z.name == name)

/-- The accumulation loop inside `housesprinkler_zone_activate`
(src/housesprinkler_zone.c lines 220-228): find the first queue entry
for the zone; if found, add the pulse to its remaining runtime and
restore a cleared `nexton` to `now`, returning the updated queue;
`none` when the zone is not queued. -/
def zoneQueueAccumulate (queue : List SprinklerQueueEntry) (zone : Nat)
    (pulse now : Int) : Option (List SprinklerQueueEntry) :=
  match queue with
  | [] => none
  | e :: rest =>
    if e.zone = zone then
      some ({ e with
                runtime := e.runtime + pulse
                nexton := if e.nexton = 0 then now else e.nexton } :: rest)
    else
      (zoneQueueAccumulate rest zone pulse now).map (fun q => e :: q)

/-- Embedding of `housesprinkler_zone_activate`
(src/housesprinkler_zone.c lines 213-238). Guard: the C code first
requires `QueueNext < ZonesCount` (room for a fresh entry) before doing
anything, including the accumulation path. A manual-only zone refuses a
non-manual activation. `now` is the value of `time(0)`. -/
def housesprinkler_zone_activate (zones : List SprinklerZone)
    (queue : List SprinklerQueueEntry) (name : String) (pulse : Int)
    (manual : Bool) (now : Int) : List SprinklerQueueEntry :=
  if queue.length < zones.length then
    match housesprinkler_zone_search zones name with
    | some zone =>
      match zones.get? zone with
      | some zc =>
        if zc.manual ∧ ¬ manual then queue
        else
          match zoneQueueAccumulate queue zone pulse now with
          | some queue2 => queue2
          | none => queue ++ [⟨zone, pulse, now⟩]
      | none => queue
    | none => queue
  else queue

/-- Embedding of `housesprinkler_zone_stop`
(src/housesprinkler_zone.c lines 240-251): every entry's runtime is
zeroed and `QueueNext` is reset to 0, i.e. the live queue becomes
empty. No HTTP command of any kind is issued by this function. -/
def housesprinkler_zone_stop (_queue : List SprinklerQueueEntry) :
    List SprinklerQueueEntry := []

/-- Embedding of `housesprinkler_zone_idle`
(src/housesprinkler_zone.c lines 500-502): `QueueNext == 0`, i.e. the
live queue is empty. -/
def housesprinkler_zone_idle (queue : List SprinklerQueueEntry) : Bool :=
  queue.length == 0

/-- The pruning loop at the head of `housesprinkler_zone_schedule`
(src/housesprinkler_zone.c lines 320-326): drop trailing entries whose
runtime is exhausted and whose pause has fully elapsed. -/
def zoneQueuePrune (queue : List SprinklerQueueEntry) (now : Int) :
    List SprinklerQueueEntry :=
  (queue.reverse.dropWhile
      (fun e => e.runtime == 0 && decide (e.nexton < now))).reverse

/-- The selection loop of `housesprinkler_zone_schedule`
(src/housesprinkler_zone.c lines 336-343): scan entries in order,
skipping exhausted ones, and keep the first entry whose positive
`nexton` is strictly below the best time seen so far. `i` is the index
of the head of `l` in the full queue, `best`/`nexttime` the running
`nextzone`/`nexttime`. -/
def zoneScheduleSelectGo (l : List SprinklerQueueEntry) (i : Nat)
    (best : Option Nat) (nexttime : Int) : Option Nat × Int :=
  match l with
  | [] => (best, nexttime)
  | e :: rest =>
    if e.runtime = 0 then zoneScheduleSelectGo rest (i + 1) best nexttime
    else if 0 < e.nexton ∧ e.nexton < nexttime then
      zoneScheduleSelectGo rest (i + 1) (some i) e.nexton
    else zoneScheduleSelectGo rest (i + 1) best nexttime

/-- Selection entry point: `nexttime` starts at `now + 1`, `nextzone`
at -1 (modelled `none`). -/
def zoneScheduleSelect (queue : List SprinklerQueueEntry) (now : Int) :
    Option Nat :=
  (zoneScheduleSelectGo queue 0 none (now + 1)).1

/-- The mutable state of `housesprinkler_zone_schedule`: the live queue
plus the function's static variables `ZoneActive` (index of the zone
whose status would be reset, modelled by index) and `ZonesBusy`. -/
structure ZoneScheduleState where
  queue : List SprinklerQueueEntry
  zonesBusy : Int
  zoneActive : Option Nat
  deriving DecidableEq

/-- Embedding of `housesprinkler_zone_schedule`
(src/housesprinkler_zone.c lines 308-366). Returns the new state and
the dispatch performed this tick: `some (zone, pulse)` when
`housesprinkler_zone_start` was invoked for that zone and pulse (the
START event is always logged there; the HTTP GET to the relay and the
busy/active update happen only when the zone has a discovered server,
and the socket is assumed to open). `pauseValve` is
`ZoneIndexValvePause`. -/
def housesprinkler_zone_schedule (zones : List SprinklerZone)
    (pauseValve : Int) (s : ZoneScheduleState) (now : Int) :
    ZoneScheduleState × Option (Nat × Int) :=
  let queue := zoneQueuePrune s.queue now
  if now ≤ s.zonesBusy then ({ s with queue := queue }, none)
  else
    let s1 : ZoneScheduleState :=
      { queue := queue, zonesBusy := s.zonesBusy, zoneActive := none }
    match zoneScheduleSelect queue now with
    | none => (s1, none)
    | some i =>
      match queue.get? i with
      | none => (s1, none)
      | some e =>
        match zones.get? e.zone with
        | none => (s1, none)
        | some zc =>
          let pulse := if zc.pulse = 0 ∨ e.runtime ≤ zc.pulse
                       then e.runtime else zc.pulse
          let runtime2 := if zc.pulse = 0 ∨ e.runtime ≤ zc.pulse
                          then 0 else e.runtime - zc.pulse
          let queue2 := queue.set i
            { e with
                runtime := runtime2
                nexton := now + pulse + zc.pause }
          if zc.hasServer then
            ({ queue := queue2, zonesBusy := now + pulse + pauseValve,
               zoneActive := some e.zone }, some (e.zone, pulse))
          else
            ({ s1 with queue := queue2 }, some (e.zone, pulse))

/-- Modelled from the spec's words (the idle predicate of the zone
queue, for comparison with the code's `housesprinkler_zone_idle`):
true when the queue is empty, or when no zone is currently in its
pulse and no queue entry has remaining runtime. -/
def spec_zone_idle (queue : List SprinklerQueueEntry) (inPulse : Bool) :
    Bool :=
  queue.isEmpty || (!inPulse && queue.all (fun e => e.runtime == 0))

/- ================================================================
   Control module (src/housesprinkler_control.c)
   ================================================================ -/

/-- A control point (`SprinklerControl` in src/housesprinkler_control.c):
name, type string ("ZONE" or "FEED"), the discovered provider URL
(empty until discovered), the deadline of the pulse in flight (0 when
none) and the status character. In this source tree control points are
declared only by `housesprinkler_feed_refresh` (feeds). -/
structure SprinklerControl where
  name : String
  typ : String
  url : String
  deadline : Int
  status : Char
  deriving DecidableEq

/-- An off-command sent on the wire by `housesprinkler_control_stop`:
GET url/set?point=point&state=off. -/
structure OffCommand where
  url : String
  point : String
  deriving DecidableEq

/-- Embedding of `housesprinkler_control_stop`
(src/housesprinkler_control.c lines 223-237): when the control has a
discovered URL, issue the off-command and mark the control idle (the
socket is assumed to open). -/
def housesprinkler_control_stop (c : SprinklerControl) :
    SprinklerControl × List OffCommand :=
  if c.url ≠ "" then ({ c with status := 'i' }, [⟨c.url, c.name⟩])
  else (c, [])

/-- Embedding of the `name == NULL` branch of
`housesprinkler_control_cancel` (src/housesprinkler_control.c lines
253-260): stop every control with a pending deadline and zero its
deadline. Returns the updated control table and all off-commands
issued, in table order. -/
def housesprinkler_control_cancel_all (controls : List SprinklerControl) :
    List SprinklerControl × List OffCommand :=
  (controls.map (fun c =>
      if c.deadline ≠ 0 then { (housesprinkler_control_stop c).1 with deadline := 0 }
      else c),
   controls.foldr (fun c acc =>
      (if c.deadline ≠ 0 then (housesprinkler_control_stop c).2 else []) ++ acc) [])

/-- Embedding of the HTTP handler `sprinkler_zone_off`
(src/housesprinkler.c lines 199-205): `housesprinkler_zone_stop`
followed by `housesprinkler_control_cancel (0)`. Returns the new zone
queue, the new control table, and every off-command issued during the
call (the zone stop itself issues none). -/
def sprinkler_zone_off (queue : List SprinklerQueueEntry)
    (controls : List SprinklerControl) :
    List SprinklerQueueEntry × List SprinklerControl × List OffCommand :=
  let queue2 := housesprinkler_zone_stop queue
  let cancelled := housesprinkler_control_cancel_all controls
  (queue2, cancelled.1, cancelled.2)

/- ================================================================
   Program module (src/housesprinkler_program.c)
   ================================================================ -/

/-- A season table entry of the program module (the local
`SprinklerSeason` struct of src/housesprinkler_program.c, which has no
priority field): unit is 0 (invalid), 1 (weekly, 52 values) or
2 (monthly, 12 values). -/
structure ProgramSeason where
  name : String
  unit : Nat
  index : List Int
  deriving DecidableEq

/-- A watering program (`SprinklerProgram` in
src/housesprinkler_program.c). `repeatMode` is 0 = once, 1 = daily,
2 = weekly (the C SPRINKLER_REPEAT_* constants); `season` is the index
into the program module's season table (C stores -1 for none, modelled
as `none`); `untilT` is the C `until` field. -/
structure SprinklerProgram where
  name : String
  enabled : Bool
  begin : Int
  untilT : Int
  startHour : Int
  startMin : Int
  repeatMode : Nat
  days : List Bool
  interval : Int
  season : Option Nat
  zones : List (String × Int)
  running : Bool
  lastlaunch : Int
  deriving DecidableEq

/-- The broken-down local time the C code obtains from `localtime`,
passed around as an oracle: hour and minute of day, day of week
(tm_wday, 0..6), month (tm_mon, 0..11) and the week-of-year value the
program module derives from tm_yday/tm_wday (after its clamping into
0..51). -/
structure LocalTime where
  hour : Int
  min : Int
  wday : Nat
  month : Nat
  week : Nat
  deriving DecidableEq

/-- The watering-index computation at the head of
`housesprinkler_program_activate` (src/housesprinkler_program.c lines
309-360): a recent online index (updated within the last 3 days) is
used as-is; otherwise the season value for the current week or month
applies; a zero season value aborts a non-manual activation (`none`)
and is overridden to 100 for a manual one. No priority of any kind is
consulted. `week`/`month` come from the local-time oracle. -/
def housesprinkler_program_activate_index (seasons : List ProgramSeason)
    (programSeason : Option Nat) (programIndex : Int)
    (programIndexTimestamp : Int) (now : Int) (week month : Nat)
    (manual : Bool) : Option Int :=
  if programIndexTimestamp > now - 3 * 86400 then some programIndex
  else
    match programSeason with
    | some si =>
      match seasons.get? si with
      | some s =>
        let index : Int :=
          if s.unit = 1 then s.index.getD week 0
          else if s.unit = 2 then s.index.getD month 0
          else 0
        if index = 0 then (if manual then some 100 else none)
        else some index
      | none => some 100
    | none => some 100

/-- Embedding of `housesprinkler_program_activate`
(src/housesprinkler_program.c lines 309-367): compute the watering
index, then activate every zone of the program with its runtime scaled
by index/100 (C integer division), always with the manual flag of the
zone activation cleared (the C code passes 0). Returns the updated
zone queue (unchanged when the activation is abandoned). -/
def housesprinkler_program_activate (zones : List SprinklerZone)
    (queue : List SprinklerQueueEntry) (seasons : List ProgramSeason)
    (p : SprinklerProgram) (programIndex programIndexTimestamp now : Int)
    (week month : Nat) (manual : Bool) : List SprinklerQueueEntry :=
  match housesprinkler_program_activate_index seasons p.season programIndex
      programIndexTimestamp now week month manual with
  | none => queue
  | some index =>
    p.zones.foldl (fun q zr =>
      housesprinkler_zone_activate zones q zr.1 ((zr.2 * index).tdiv 100)
        false now) queue

/-- The repeat-match switch of `housesprinkler_program_periodic`
(src/housesprinkler_program.c lines 423-436). -/
def programRepeatMatch (p : SprinklerProgram) (now : Int) (lt : LocalTime) :
    Bool :=
  if p.repeatMode = 2 then p.days.getD lt.wday false
  else if p.repeatMode = 1 then
    decide ((now - p.lastlaunch).tdiv 86400 ≥ p.interval)
  else if p.repeatMode = 0 then
    decide (p.lastlaunch = 0 ∧ 0 < p.begin - now ∧ p.begin - now < 60)
  else false

/-- The firing condition of the per-program loop of
`housesprinkler_program_periodic` (src/housesprinkler_program.c lines
400-440): not running, enabled, exact start time-of-day match, within
the begin/until window, and repeat match. -/
def programFire (p : SprinklerProgram) (now : Int) (lt : LocalTime) : Bool :=
  (!p.running) && p.enabled
    && (lt.hour == p.startHour) && (lt.min == p.startMin)
    && !(decide (p.begin > now)) && !(decide (0 < p.untilT ∧ p.untilT < now))
    && programRepeatMatch p now lt

/-- Static and global state of the program module
(src/housesprinkler_program.c): the `lasthour`/`lastminute` statics of
`housesprinkler_program_periodic`, `ProgramRainEnabled` (initially 1),
`ProgramRainDelay` (initially 0), `ProgramIndex` and
`ProgramIndexTimestamp`, and the program table. -/
structure ProgramPeriodicState where
  lasthour : Int
  lastminute : Int
  rainEnabled : Bool
  rainDelay : Int
  programIndex : Int
  programIndexTimestamp : Int
  programs : List SprinklerProgram
  deriving DecidableEq

/-- Embedding of `housesprinkler_program_periodic`
(src/housesprinkler_program.c lines 380-453). Runs at most once per
wall-clock minute; is gated by the program module's own rain-delay
variables (`ProgramRainEnabled && ProgramRainDelay > now`); then fires
every matching program, activating its zones and setting
running/lastlaunch; finally, when the zone queue is idle, clears every
running flag. Returns the new module state, the new zone queue, and
the names of the programs whose activation was dispatched this tick. -/
def housesprinkler_program_periodic (zones : List SprinklerZone)
    (seasons : List ProgramSeason) (queue : List SprinklerQueueEntry)
    (s : ProgramPeriodicState) (now : Int) (lt : LocalTime) :
    ProgramPeriodicState × List SprinklerQueueEntry × List String :=
  if lt.hour = s.lasthour ∧ lt.min = s.lastminute then (s, queue, [])
  else
    let s1 := { s with lasthour := lt.hour, lastminute := lt.min }
    if s1.rainEnabled ∧ s1.rainDelay > now then (s1, queue, [])
    else
      let step := s1.programs.foldl
        (fun (acc : List SprinklerProgram × List SprinklerQueueEntry × List String) p =>
          if programFire p now lt then
            let queue2 := housesprinkler_program_activate zones acc.2.1
              seasons p s1.programIndex s1.programIndexTimestamp now
              lt.week lt.month false
            (acc.1 ++ [{ p with running := true, lastlaunch := now }],
             queue2, acc.2.2 ++ [p.name])
          else (acc.1 ++ [p], acc.2.1, acc.2.2))
        ([], queue, [])
      let programs2 :=
        if housesprinkler_zone_idle step.2.1 then
          step.1.map (fun p => { p with running := false })
        else step.1
      ({ s1 with programs := programs2 }, step.2.1, step.2.2)

/- ================================================================
   Season module (src/housesprinkler_season.c)
   ================================================================ -/

/-- A season of the season module (`SprinklerSeason` in
src/housesprinkler_season.c), which carries a `priority` field, unlike
the program module's local season table. -/
structure SeasonEntry where
  name : String
  priority : Int
  unit : Nat
  index : List Int
  deriving DecidableEq

/-- Embedding of `housesprinkler_season_find`
(src/housesprinkler_season.c lines 70-77). -/
def housesprinkler_season_find (seasons : List SeasonEntry) (name : String) :
    Option Nat :=
  seasons.findIdx? (fun s => s.name == name)

/-- Embedding of `housesprinkler_season_priority`
(src/housesprinkler_season.c lines 138-144): the priority of the named
season, 0 when the season does not exist. -/
def housesprinkler_season_priority (seasons : List SeasonEntry)
    (name : String) : Int :=
  match housesprinkler_season_find seasons name with
  | none => 0
  | some i => ((seasons.get? i).map (fun s => s.priority)).getD 0

/- ================================================================
   Schedule module (src/housesprinkler_schedule.c)
   ================================================================ -/

/-- A recurring schedule entry (`SprinklerSchedule` in
src/housesprinkler_schedule.c). The uuid is modelled as a string;
`untilT` is the C `until` field. -/
structure ScheduleEntry where
  id : String
  program : String
  disabled : Bool
  begin : Int
  untilT : Int
  startHour : Int
  startMin : Int
  days : List Bool
  interval : Int
  lastlaunch : Int
  deriving DecidableEq

/-- A one-time schedule entry (`SprinklerOneTimeSchedule` in
src/housesprinkler_schedule.c): the program name is a strdup'd string
or NULL, the entry is active while `start` is non-zero. -/
structure OneTimeSchedule where
  program : Option String
  start : Int
  deriving DecidableEq

/-- Static and global state of the schedule module
(src/housesprinkler_schedule.c): `SprinklerOn` (initially 1), the
`lasthour`/`lastminute` statics of the periodic, `RainDelayEnabled`
(initially 1), `RainDelay` (initially 0), the schedule table and the
one-time schedule table. `stateDirty` records that
`housesprinkler_state_changed` was called. -/
structure ScheduleState where
  sprinklerOn : Bool
  lasthour : Int
  lastminute : Int
  rainDelayEnabled : Bool
  rainDelay : Int
  schedules : List ScheduleEntry
  onetimes : List OneTimeSchedule
  stateDirty : Bool
  deriving DecidableEq

/-- Embedding of `housesprinkler_schedule_new_onetime`
(src/housesprinkler_schedule.c lines 161-185): reuse the first
inactive entry (clearing its program), or grow the table by 8 fresh
zeroed entries and return the first new slot. -/
def housesprinkler_schedule_new_onetime (l : List OneTimeSchedule) :
    Nat × List OneTimeSchedule :=
  match l.findIdx? (fun e => e.start == 0) with
  | some i => (i, l.set i ⟨none, 0⟩)
  | none => (l.length, l ++ List.replicate 8 ⟨none, 0⟩)

/-- Embedding of `housesprinkler_schedule_once`
(src/housesprinkler_schedule.c lines 422-435): refused when the system
is off, when the start is in the past, or when it is more than 3 days
ahead; otherwise a one-time entry is created. -/
def housesprinkler_schedule_once (s : ScheduleState) (program : String)
    (start now : Int) : ScheduleState :=
  if ¬ s.sprinklerOn then s
  else if start < now then s
  else if start > now + 3 * 24 * 60 * 60 then s
  else
    let slot := housesprinkler_schedule_new_onetime s.onetimes
    let start2 := if start < now - 70 then start + 24 * 60 * 60 else start
    { s with
        onetimes := slot.2.set slot.1 ⟨some program, start2⟩
        stateDirty := true }

/-- Embedding of `housesprinkler_schedule_again`
(src/housesprinkler_schedule.c lines 437-464): refused when the system
is off or the uuid matches no schedule; otherwise a one-time entry for
the schedule's program is created at the next occurrence of the
schedule's start time of day. `todayStart` is the `mktime` oracle
result for today at that start time. -/
def housesprinkler_schedule_again (s : ScheduleState) (id : String)
    (now todayStart : Int) : ScheduleState :=
  if ¬ s.sprinklerOn then s
  else
    match s.schedules.find? (fun sch => sch.id == id) with
    | none => s
    | some sch =>
      let slot := housesprinkler_schedule_new_onetime s.onetimes
      let start2 := if todayStart < now - 70 then todayStart + 24 * 60 * 60
                    else todayStart
      { s with
          onetimes := slot.2.set slot.1 ⟨some sch.program, start2⟩
          stateDirty := true }

/-- Embedding of `housesprinkler_schedule_cancel`
(src/housesprinkler_schedule.c lines 466-480): refused when the system
is off; otherwise the first active one-time entry with the given
program name is deactivated. -/
def housesprinkler_schedule_cancel (s : ScheduleState) (program : String) :
    ScheduleState :=
  if ¬ s.sprinklerOn then s
  else
    match s.onetimes.findIdx? (fun e =>
        !(e.start == 0) && (e.program == some program)) with
    | none => s
    | some i =>
      match s.onetimes.get? i with
      | none => s
      | some e =>
        { s with
            onetimes := s.onetimes.set i { e with start := 0 }
            stateDirty := true }

/-- The interval predicate of the recurring-schedule loop of
`housesprinkler_schedule_periodic` (src/housesprinkler_schedule.c
lines 564-569): when `interval > 1`, the schedule may fire only if at
least `interval` days (with a 6-hour leniency) have passed since the
later of the schedule's own last launch and the program's last
scheduled time (obtained from the program module, passed as the oracle
`programScheduled`). -/
def scheduleIntervalOk (programScheduled : String → Int)
    (sch : ScheduleEntry) (now : Int) : Bool :=
  if sch.interval > 1 then
    let t0 := max (programScheduled sch.program) sch.lastlaunch
    !(decide ((now - t0 + 21600).tdiv 86400 < sch.interval))
  else true

/-- The firing condition of the recurring-schedule loop of
`housesprinkler_schedule_periodic` (src/housesprinkler_schedule.c
lines 519-570): enabled, program not running, exact time-of-day match,
inside the begin/until window, day-of-week enabled, interval passed. -/
def scheduleFire (runningQ : String → Bool) (programScheduled : String → Int)
    (sch : ScheduleEntry) (now : Int) (lt : LocalTime) : Bool :=
  (!sch.disabled) && !(runningQ sch.program)
    && (lt.hour == sch.startHour) && (lt.min == sch.startMin)
    && !(decide (sch.begin > now))
    && !(decide (0 < sch.untilT ∧ sch.untilT < now))
    && sch.days.getD lt.wday false
    && scheduleIntervalOk programScheduled sch now

/-- Embedding of `housesprinkler_schedule_periodic`
(src/housesprinkler_schedule.c lines 482-580). Returns the new module
state and the names of the programs for which
`housesprinkler_program_start_scheduled` was invoked this tick, in
order (one-time entries first, then recurring schedules).
`startScheduled` is the oracle for that call (the program module's
start function, declared in src/housesprinkler_program.h): it returns
the non-zero launch time on success. -/
def housesprinkler_schedule_periodic (runningQ : String → Bool)
    (programScheduled : String → Int) (startScheduled : String → Option Int)
    (s : ScheduleState) (now : Int) (lt : LocalTime) :
    ScheduleState × List String :=
  if ¬ s.sprinklerOn then (s, [])
  else if lt.hour = s.lasthour ∧ lt.min = s.lastminute then (s, [])
  else
    let s1 := { s with lasthour := lt.hour, lastminute := lt.min }
    let s2 := if 0 < s1.rainDelay ∧ s1.rainDelay < now
              then { s1 with rainDelay := 0 } else s1
    if 0 < s2.rainDelay then (s2, [])
    else
      let once := s2.onetimes.foldl
        (fun (acc : List OneTimeSchedule × List String × Bool) e =>
          if e.start ≠ 0 ∧ e.start ≤ now then
            let nm := e.program.getD ""
            match startScheduled nm with
            | some _ => (acc.1 ++ [{ e with start := 0 }],
                         acc.2.1 ++ [nm], true)
            | none => (acc.1 ++ [e], acc.2.1 ++ [nm], acc.2.2)
          else (acc.1 ++ [e], acc.2.1, acc.2.2))
        ([], [], false)
      let recurring := s2.schedules.foldl
        (fun (acc : List ScheduleEntry × List String × Bool) sch =>
          if scheduleFire runningQ programScheduled sch now lt then
            match startScheduled sch.program with
            | some t => (acc.1 ++ [{ sch with lastlaunch := t }],
                         acc.2.1 ++ [sch.program], true)
            | none => (acc.1 ++ [sch], acc.2.1 ++ [sch.program], acc.2.2)
          else (acc.1 ++ [sch], acc.2.1, acc.2.2))
        ([], [], false)
      ({ s2 with
           onetimes := once.1
           schedules := recurring.1
           stateDirty := s2.stateDirty || once.2.2 || recurring.2.2 },
       once.2.1 ++ recurring.2.1)

/-- The dispatches of one background tick as driven by `hs_background`
(src/housesprinkler.c lines 253-259): `housesprinkler_program_periodic`
runs before `housesprinkler_schedule_periodic`, both on the same
scheduling time. Returns the program names dispatched by either
periodic this tick. -/
def sprinkler_background_dispatches (zones : List SprinklerZone)
    (seasons : List ProgramSeason) (queue : List SprinklerQueueEntry)
    (ps : ProgramPeriodicState) (ss : ScheduleState)
    (runningQ : String → Bool) (programScheduled : String → Int)
    (startScheduled : String → Option Int) (now : Int) (lt : LocalTime) :
    List String :=
  let stepP := housesprinkler_program_periodic zones seasons queue ps now lt
  let stepS := housesprinkler_schedule_periodic runningQ programScheduled
    startScheduled ss now lt
  stepP.2.2 ++ stepS.2

/- ================================================================
   Feed module (src/housesprinkler_feed.c)
   ================================================================ -/

/-- A feed (`SprinklerFeed` in src/housesprinkler_feed.c): the C code
treats a NULL or empty `next` the same way (`name && name[0]`), so an
absent next is modelled as the empty string. -/
structure SprinklerFeed where
  name : String
  next : String
  manual : Bool
  linger : Int
  deriving DecidableEq

/-- The houselog events the feed module can emit while walking a chain
(src/housesprinkler_feed.c): an unknown starting feed, an unknown
`next` name, and the INVALID INFINITE LOOP IN CHAIN event of the
refresh-time cycle detection. -/
inductive FeedEvent where
  | unknownStart (name : String)
  | unknownNext (previous next : String)
  | infiniteLoop (name : String)
  deriving DecidableEq

/-- Whether a feed event is the INVALID INFINITE LOOP IN CHAIN event. -/
def FeedEvent.isInfiniteLoop : FeedEvent → Bool
  | .infiniteLoop _ => true
  | _ => false

/-- Embedding of `housesprinkler_feed_search`
(src/housesprinkler_feed.c lines 77-83). -/
def housesprinkler_feed_search (feeds : List SprinklerFeed) (name : String) :
    Option SprinklerFeed :=
  feeds.find? (fun f => f.name == name)

/-- Result of one feed-chain activation: the events logged, the
control starts issued (point name and pulse+linger), the number of
feeds visited, and whether the traversal was cut by the
`++loop >= FeedCount` bound while a non-empty next name remained. -/
structure FeedActivateResult where
  events : List FeedEvent
  starts : List (String × Int)
  visits : Nat
  overrun : Bool
  deriving DecidableEq

/-- The event the feed walk logs when a name is not found: UNKNOWN
NEXT when the walk had already followed at least one link, UNKNOWN for
the starting name (src/housesprinkler_feed.c lines 153-159). -/
def feedUnknownEvent (previous : Option String) (name : String) : FeedEvent :=
  match previous with
  | some p => .unknownNext p name
  | none => .unknownStart name

/-- The final iteration of the `housesprinkler_feed_activate` loop,
when the bound test `++loop >= FeedCount` will cut the traversal right
after the current feed is processed: the feed is looked up and (when
not manual) started, and the walk stops, with an overrun recorded when
the next name to follow was non-empty. -/
def feedActivateLast (feeds : List SprinklerFeed) (pulse : Int)
    (name : String) (previous : Option String) : FeedActivateResult :=
  if name = "" then ⟨[], [], 0, false⟩
  else
    match housesprinkler_feed_search feeds name with
    | none => ⟨[feedUnknownEvent previous name], [], 0, false⟩
    | some f =>
      ⟨[], if f.manual then [] else [(name, pulse + f.linger)], 1,
       decide (f.next ≠ "")⟩

/-- The loop of `housesprinkler_feed_activate`
(src/housesprinkler_feed.c lines 151-174), with the loop counter
expressed as the remaining iteration budget `fuel = FeedCount - loop`
(the bound test `++loop >= FeedCount` after processing a feed is
`fuel ≤ 1`; `fuel = 0` is unreachable from the entry point since a
feed can only be found when the table is non-empty, and is given the
same cut behavior). When the context is empty and the feed is not
manual, the C code also enables a one-shot control event; that call
changes only control-event flags and is not modelled. -/
def feedActivateGo (feeds : List SprinklerFeed) (pulse : Int) :
    Nat → String → Option String → FeedActivateResult
  | 0, name, previous => feedActivateLast feeds pulse name previous
  | 1, name, previous => feedActivateLast feeds pulse name previous
  | k + 2, name, previous =>
    if name = "" then ⟨[], [], 0, false⟩
    else
      match housesprinkler_feed_search feeds name with
      | none => ⟨[feedUnknownEvent previous name], [], 0, false⟩
      | some f =>
        let starts := if f.manual then [] else [(name, pulse + f.linger)]
        let r := feedActivateGo feeds pulse (k + 1) f.next (some name)
        ⟨r.events, starts ++ r.starts, r.visits + 1, r.overrun⟩

/-- Embedding of `housesprinkler_feed_activate`
(src/housesprinkler_feed.c lines 145-175): walk the chain starting at
`name`, with the iteration budget `FeedCount`. -/
def housesprinkler_feed_activate (feeds : List SprinklerFeed)
    (name : String) (pulse : Int) : FeedActivateResult :=
  feedActivateGo feeds pulse feeds.length name none

/-- The cycle-detection walk for one starting feed inside
`housesprinkler_feed_refresh` (src/housesprinkler_feed.c lines
123-142): follow `next` names; log UNKNOWN NEXT and stop on a missing
feed; log INVALID INFINITE LOOP IN CHAIN and stop when the loop
counter reaches `FeedCount`. `start` is the name of the feed whose
chain is checked (`Feed[i].name`, used in the loop event), and the
walk starts at its `next`. -/
def feedDetectGo (feeds : List SprinklerFeed) (start : String) :
    Nat → String → String → List FeedEvent
  | 0, name, previous =>
    if name = "" then []
    else
      match housesprinkler_feed_search feeds name with
      | none => [.unknownNext previous name]
      | some _ => [.infiniteLoop start]
  | 1, name, previous =>
    if name = "" then []
    else
      match housesprinkler_feed_search feeds name with
      | none => [.unknownNext previous name]
      | some _ => [.infiniteLoop start]
  | k + 2, name, previous =>
    if name = "" then []
    else
      match housesprinkler_feed_search feeds name with
      | none => [.unknownNext previous name]
      | some f => feedDetectGo feeds start (k + 1) f.next name

/-- The cycle-detection pass of `housesprinkler_feed_refresh`
(src/housesprinkler_feed.c lines 122-142), over all feeds: the events
logged while checking every chain. -/
def housesprinkler_feed_detect_loops (feeds : List SprinklerFeed) :
    List FeedEvent :=
  feeds.foldl (fun acc f =>
    acc ++ feedDetectGo feeds f.name feeds.length f.next f.name) []

/- ================================================================
   Interval module (src/housesprinkler_interval.c)
   ================================================================ -/

/-- An interval scale (`SprinklerIntervals` in
src/housesprinkler_interval.c): the C `byindex` array always has
SCALE_LIMIT = 11 slots (calloc'd to zero, the first `count` filled
from the configuration). -/
structure IntervalScale where
  name : String
  count : Nat
  byindex : List Int
  deriving DecidableEq

/-- Embedding of `housesprinkler_interval_find`
(src/housesprinkler_interval.c lines 68-75). -/
def housesprinkler_interval_find (intervals : List IntervalScale)
    (name : String) : Option Nat :=
  intervals.findIdx? (fun s => s.name == name)

/-- The slot computation of `housesprinkler_interval_get`
(src/housesprinkler_interval.c lines 137-139): C division of the
watering index by 10 (truncation toward zero), then clamping at
SCALE_LIMIT - 1 = 10 above and 0 below. -/
def housesprinkler_interval_slot (index : Int) : Int :=
  let i := index.tdiv 10
  if i ≥ 11 then 10
  else if i < 0 then 0
  else i

/-- Embedding of `housesprinkler_interval_get`
(src/housesprinkler_interval.c lines 132-142): 0 when the scale name
does not exist (run every day), otherwise the table value at the
clamped slot. -/
def housesprinkler_interval_get (intervals : List IntervalScale)
    (name : String) (index : Int) : Int :=
  match housesprinkler_interval_find intervals name with
  | none => 0
  | some scale =>
    match intervals.get? scale with
    | none => 0
    | some sc => sc.byindex.getD (housesprinkler_interval_slot index).toNat 0

/- ================================================================
   Config module (src/housesprinkler_config.c)
   ================================================================ -/

/-- A parsed JSON token of the external echttp parser (ParserToken),
modelled opaquely. -/
abbrev JsonToken := String

/-- The in-memory configuration state of src/housesprinkler_config.c:
the allocated size of the `ConfigParsed` token table, the table's
contents, `ConfigTokenCount`, and the configuration text with its
length. The config accessors observe `tokens` and `tokenCount`. -/
structure ConfigState where
  tokenAllocated : Nat
  tokens : List JsonToken
  tokenCount : Nat
  configText : String
  configTextLength : Nat
  deriving DecidableEq

/-- Embedding of `housesprinkler_config_parse`
(src/housesprinkler_config.c lines 134-145). `estimate` and
`jsonParse` are the external echttp `echttp_json_estimate` and
`echttp_json_parse`. The C code grows (freeing the previous token
table) when the estimate exceeds the allocation, then sets
`ConfigTokenCount` to the allocated size and parses in place. On a
parse error it returns with the token table and count in that state;
the model is the one most favorable to preservation: the token
contents are kept unchanged on error (the real parser may in addition
have partially overwritten them before failing). -/
def housesprinkler_config_parse (estimate : String → Nat)
    (jsonParse : String → Except String (List JsonToken))
    (text : String) (s : ConfigState) : Option String × ConfigState :=
  let count := estimate text
  let s1 := if count > s.tokenAllocated then
      { s with tokenAllocated := count, tokens := List.replicate count "" }
    else s
  let s2 := { s1 with tokenCount := s1.tokenAllocated }
  match jsonParse text with
  | .ok toks => (none, { s2 with tokens := toks, tokenCount := toks.length })
  | .error e => (some e, s2)

/-- Embedding of `housesprinkler_config_save`
(src/housesprinkler_config.c lines 224-269), without the file write:
the early guard rejects strings shorter than 10 characters or not
starting with a brace; then the candidate text is parsed with
`housesprinkler_config_parse`; on a parse error the candidate string
is freed and the error returned; on success the live text is
replaced. -/
def housesprinkler_config_save (estimate : String → Nat)
    (jsonParse : String → Except String (List JsonToken))
    (text : String) (s : ConfigState) : Option String × ConfigState :=
  if text.length < 10 ∨ text.toList.getD 0 ' ' ≠ Char.ofNat 123 then
    (some "invalid string", s)
  else
    match housesprinkler_config_parse estimate jsonParse text s with
    | (some e, s2) => (some e, s2)
    | (none, s2) =>
      (none, { s2 with configText := text, configTextLength := text.length })

/-- Embedding of `housesprinkler_config_exists`
(src/housesprinkler_config.c lines 289-292): bounds-check the parent
against `ConfigTokenCount`, then search. `search` is the external
`echttp_json_search` (non-negative result means found). -/
def housesprinkler_config_exists (search : List JsonToken → Int → String → Int)
    (s : ConfigState) (parent : Int) (path : String) : Bool :=
  if parent < 0 ∨ parent ≥ (s.tokenCount : Int) then false
  else decide (search s.tokens parent path ≥ 0)

/- ================================================================
   Theorems
   ================================================================ -/

/-- C9: the interval lookup is total: for every integer watering-index
argument (including negative values and values above 100) the derived
slot index/10 is clamped into the range 0..10 before the 11-entry
table is read, so the access is always in bounds, and a scale name
that does not exist yields 0 (run every day). -/
theorem C9_interval_lookup_total (idx : Int) (intervals : List IntervalScale)
    (name : String) :
    (0 ≤ housesprinkler_interval_slot idx
       ∧ housesprinkler_interval_slot idx ≤ 10)
    ∧ (∀ sc : IntervalScale, sc.byindex.length = 11 →
         (housesprinkler_interval_slot idx).toNat < sc.byindex.length)
    ∧ (housesprinkler_interval_find intervals name = none →
         housesprinkler_interval_get intervals name idx = 0) := by
  have hslot : 0 ≤ housesprinkler_interval_slot idx
      ∧ housesprinkler_interval_slot idx ≤ 10 := by
    unfold housesprinkler_interval_slot
    dsimp only
    split
    · omega
    · split
      · omega
      · omega
  refine ⟨hslot, ?_, ?_⟩
  · intro sc hlen
    rw [hlen]
    omega
  · intro hfind
    unfold housesprinkler_interval_get
    rw [hfind]

/-- C9 witness: concrete instantiation at watering index -37, an
11-entry scale and a name absent from an empty scale table. -/
theorem C9_interval_lookup_total_witness :
    (0 ≤ housesprinkler_interval_slot (-37)
       ∧ housesprinkler_interval_slot (-37) ≤ 10)
    ∧ (housesprinkler_interval_slot (-37)).toNat
        < (List.replicate 11 (3 : Int)).length
    ∧ housesprinkler_interval_get [] "unknown" (-37) = 0 := by
  have h := C9_interval_lookup_total (-37) [] "unknown"
  exact ⟨h.1, h.2.1 ⟨"s", 11, List.replicate 11 (3 : Int)⟩ (by decide),
         h.2.2 (by decide)⟩

/-- C10: when the sprinkler system is switched off, the one-time
schedule operations once, again and cancel are all no-ops: they return
without modifying the one-time schedule list (indeed without modifying
any module state), even for otherwise valid arguments. -/
theorem C10_schedule_ops_noop_when_off (s : ScheduleState) (program id : String)
    (start now todayStart : Int) (hoff : s.sprinklerOn = false) :
    housesprinkler_schedule_once s program start now = s
    ∧ housesprinkler_schedule_again s id now todayStart = s
    ∧ housesprinkler_schedule_cancel s program = s := by
  refine ⟨?_, ?_, ?_⟩
  · unfold housesprinkler_schedule_once
    simp [hoff]
  · unfold housesprinkler_schedule_again
    simp [hoff]
  · unfold housesprinkler_schedule_cancel
    simp [hoff]

/-- C10 witness: concrete instantiation on a switched-off state
holding one recurring schedule and one active one-time entry, with
arguments that would be accepted were the system on. -/
theorem C10_schedule_ops_noop_when_off_witness :
    housesprinkler_schedule_once
      ⟨false, -1, -1, true, 0,
       [⟨"u1", "P", false, 0, 0, 6, 0, List.replicate 7 true, 0, 0⟩],
       [⟨some "Q", 500⟩], false⟩ "P" 600 500
      = ⟨false, -1, -1, true, 0,
         [⟨"u1", "P", false, 0, 0, 6, 0, List.replicate 7 true, 0, 0⟩],
         [⟨some "Q", 500⟩], false⟩
    ∧ housesprinkler_schedule_again
      ⟨false, -1, -1, true, 0,
       [⟨"u1", "P", false, 0, 0, 6, 0, List.replicate 7 true, 0, 0⟩],
       [⟨some "Q", 500⟩], false⟩ "u1" 500 600
      = ⟨false, -1, -1, true, 0,
         [⟨"u1", "P", false, 0, 0, 6, 0, List.replicate 7 true, 0, 0⟩],
         [⟨some "Q", 500⟩], false⟩
    ∧ housesprinkler_schedule_cancel
      ⟨false, -1, -1, true, 0,
       [⟨"u1", "P", false, 0, 0, 6, 0, List.replicate 7 true, 0, 0⟩],
       [⟨some "Q", 500⟩], false⟩ "Q"
      = ⟨false, -1, -1, true, 0,
         [⟨"u1", "P", false, 0, 0, 6, 0, List.replicate 7 true, 0, 0⟩],
         [⟨some "Q", 500⟩], false⟩ :=
  C10_schedule_ops_noop_when_off _ "P" "u1" 600 500 600 rfl

/-- C6 counterexample: the claim states that the zone idle predicate
is true exactly when the queue is empty or when no zone is in its
pulse and no entry has remaining runtime; but on a queue holding one
entry whose runtime is exhausted and whose final pause is still
running (no pulse in flight), the code's predicate is false while the
claimed characterization is true. -/
theorem C6_idle_claim_counterexample :
    housesprinkler_zone_idle [⟨0, 0, 100⟩] = false
    ∧ spec_zone_idle [⟨0, 0, 100⟩] false = true := by
  decide

/-- C6 amended: the zone idle predicate returns true exactly when the
activation queue is empty; since an entry stays queued until its final
pause has elapsed, any queued entry (in particular a zone between
pulses with runtime remaining) keeps the predicate false, so a program
is not reported complete while merely between pulses. -/
theorem C6_idle_amended (queue : List SprinklerQueueEntry) :
    (housesprinkler_zone_idle queue = true ↔ queue = [])
    ∧ (∀ e : SprinklerQueueEntry, e ∈ queue →
         housesprinkler_zone_idle queue = false) := by
  constructor
  · unfold housesprinkler_zone_idle
    simp [List.length_eq_zero]
  · intro e he
    unfold housesprinkler_zone_idle
    simp only [beq_eq_false_iff_ne, ne_eq, beq_iff_eq]
    have : queue ≠ [] := by
      intro h
      rw [h] at he
      exact absurd he (List.not_mem_nil e)
    simp [List.length_eq_zero, this]

/-- C6 witness: on a queue holding one entry between pulses (runtime
remaining, pause pending) the idle predicate is false. -/
theorem C6_idle_amended_witness :
    (housesprinkler_zone_idle [⟨0, 300, 900⟩] = true ↔
      ([⟨0, 300, 900⟩] : List SprinklerQueueEntry) = [])
    ∧ housesprinkler_zone_idle [⟨0, 300, 900⟩] = false :=
  ⟨(C6_idle_amended [⟨0, 300, 900⟩]).1,
   (C6_idle_amended [⟨0, 300, 900⟩]).2 ⟨0, 300, 900⟩ (by decide)⟩

/-- C7: a POSTed configuration body that fails JSON parsing makes the
config-save operation return an error (surfaced as HTTP 500 by
sprinkler_config), as the claim states; but the in-memory
configuration observable through the config accessors is NOT preserved:
`housesprinkler_config_parse` overwrites the shared token table and
`ConfigTokenCount` before the parse outcome is known, so after the
failed save an accessor bounds check that used to fail now passes
(here: parent 30 against a count clobbered from 5 to the allocated
40). The spec's stated intent (load rejected, previous config
preserved) is contradicted by this clobbering, a slip in the code. -/
theorem C7_failed_save_clobbers_config :
    housesprinkler_config_save (fun _ => 7)
      (fun _ => Except.error "syntax") "\x7b\"zones\":["
      ⟨40, ["r", "a", "b", "c", "d"], 5, "\x7b\"old\":12\x7d", 10⟩
    = (some "syntax", ⟨40, ["r", "a", "b", "c", "d"], 40, "\x7b\"old\":12\x7d", 10⟩)
    ∧ housesprinkler_config_exists (fun _ _ _ => 0)
        ⟨40, ["r", "a", "b", "c", "d"], 5, "\x7b\"old\":12\x7d", 10⟩ 30 ".x" = false
    ∧ housesprinkler_config_exists (fun _ _ _ => 0)
        ⟨40, ["r", "a", "b", "c", "d"], 40, "\x7b\"old\":12\x7d", 10⟩ 30 ".x" = true := by
  refine ⟨?_, by decide, by decide⟩
  rfl

/-- C1 counterexample: the claim states that when the season's
priority is higher than the online index priority, the effective
watering index equals the season's value. On the spec's own scenario
(season summer with priority 10 and current weekly value 80; online
index value 120 with priority 5, updated one day ago) the code's index
computation (src/housesprinkler_program.c lines 309-360) returns the
online value 120, not the season value 80: it consults only the age
of the online index (3 days), never any priority, and indeed the
online provider callback does not even transmit a priority to the
program module. -/
theorem C1_effective_index_claim_counterexample :
    housesprinkler_season_priority
      [⟨"summer", 10, 1, List.replicate 52 80⟩] "summer" = 10
    ∧ (10 : Int) > 5
    ∧ housesprinkler_program_activate_index
        [⟨"summer", 1, List.replicate 52 80⟩] (some 0) 120 777600 864000
        0 0 false = some 120
    ∧ some (120 : Int) ≠ some (80 : Int) := by
  refine ⟨by decide, by decide, ?_, by decide⟩
  rfl

/-- C1 amended: for every non-manual activation of a program that
references a season, the effective watering index equals the season's
value for the current week or month only when the online index is
stale (not updated within the last 3 days); an online index updated
within the last 3 days always replaces the season value, regardless of
the season's or the online index's priority. -/
theorem C1_effective_index_amended (seasons : List ProgramSeason)
    (programSeason : Option Nat)
    (programIndex programIndexTimestamp now : Int) (week month : Nat) :
    (programIndexTimestamp > now - 3 * 86400 →
       housesprinkler_program_activate_index seasons programSeason
         programIndex programIndexTimestamp now week month false
         = some programIndex)
    ∧ (¬ programIndexTimestamp > now - 3 * 86400 →
       ∀ si s, programSeason = some si → seasons.get? si = some s →
         (s.unit = 1 → s.index.getD week 0 ≠ 0 →
            housesprinkler_program_activate_index seasons programSeason
              programIndex programIndexTimestamp now week month false
              = some (s.index.getD week 0))
         ∧ (s.unit = 2 → s.index.getD month 0 ≠ 0 →
            housesprinkler_program_activate_index seasons programSeason
              programIndex programIndexTimestamp now week month false
              = some (s.index.getD month 0))) := by
  constructor
  · intro hrecent
    unfold housesprinkler_program_activate_index
    rw [if_pos hrecent]
  · intro hstale si s hsi hs
    have hs2 : seasons[si]? = some s := by
      rw [← List.get?_eq_getElem?]; exact hs
    constructor
    · intro hu hv
      rw [List.getD_eq_getElem?_getD] at hv
      unfold housesprinkler_program_activate_index
      rw [if_neg hstale, hsi]
      simp [hs2, hu, hv]
    · intro hu hv
      rw [List.getD_eq_getElem?_getD] at hv
      have h1 : s.unit ≠ 1 := by omega
      unfold housesprinkler_program_activate_index
      rw [if_neg hstale, hsi]
      simp [hs2, hu, h1, hv]

/-- C1 witness: concrete instantiations of both branches: a one-day
old online index of 120 wins; with a stale online index, the weekly
season value 80 applies. -/
theorem C1_effective_index_amended_witness :
    housesprinkler_program_activate_index [] none 120 777600 864000 0 0 false
      = some 120
    ∧ housesprinkler_program_activate_index
        [⟨"summer", 1, List.replicate 52 80⟩] (some 0) 120 0 864000 0 0 false
      = some ((⟨"summer", 1, List.replicate 52 80⟩ : ProgramSeason).index.getD 0 0) :=
  ⟨(C1_effective_index_amended [] none 120 777600 864000 0 0).1 (by decide),
   ((C1_effective_index_amended [⟨"summer", 1, List.replicate 52 80⟩] (some 0)
       120 0 864000 0 0).2 (by decide) 0 ⟨"summer", 1, List.replicate 52 80⟩
       rfl rfl).1 rfl (by decide)⟩

/-- C3 counterexample: the claim states that when the rain-delay
deadline lies strictly in the future, no program activation is
dispatched by the periodic evaluation from any periodic dispatch path.
With the schedule module's rain delay at 1000 and the tick at 900,
`housesprinkler_program_periodic` still dispatches program P through
its own schedule-evaluation path (src/housesprinkler_program.c lines
396-445): that path is gated only by the program module's separate
`ProgramRainDelay`, which is still at its initial 0 because the
rain-delay REST surface feeds `housesprinkler_schedule_set_rain`
only. -/
theorem C3_rain_delay_claim_counterexample :
    sprinkler_background_dispatches
      [⟨"z", 0, 0, false, true, "http://r1/relay"⟩] [] []
      ⟨-1, -1, true, 0, 100, 0,
       [⟨"P", true, 0, 0, 6, 0, 2, List.replicate 7 true, 0, none,
         [("z", 600)], false, 0⟩]⟩
      ⟨true, -1, -1, true, 1000, [], [], false⟩
      (fun _ => false) (fun _ => 0) (fun _ => some 900) 900 ⟨6, 0, 3, 5, 22⟩
      = ["P"]
    ∧ (1000 : Int) > 900 := by
  exact ⟨rfl, by decide⟩

/-- C3 amended: when the schedule module's rain-delay deadline lies
strictly in the future, the schedule module's periodic evaluation
dispatches no program, neither from a one-time schedule nor from a
recurring schedule; the program module's own periodic evaluation
remains gated only by its separate rain-delay state. -/
theorem C3_rain_delay_amended (runningQ : String → Bool)
    (programScheduled : String → Int) (startScheduled : String → Option Int)
    (s : ScheduleState) (now : Int) (lt : LocalTime)
    (h0 : 0 ≤ now) (hr : now < s.rainDelay) :
    (housesprinkler_schedule_periodic runningQ programScheduled
       startScheduled s now lt).2 = [] := by
  unfold housesprinkler_schedule_periodic
  split
  · rfl
  · split
    · rfl
    · have h1 : ¬ (0 < s.rainDelay ∧ s.rainDelay < now) := by omega
      have h2 : 0 < s.rainDelay := by omega
      have h3 : ¬ (s.rainDelay < now) := by omega
      simp [h1, h2, h3]

/-- C3 witness: concrete instantiation: rain delay 1000, tick at 900,
a one-time entry and a recurring schedule that would both fire were
the rain delay not pending; nothing is dispatched. -/
theorem C3_rain_delay_amended_witness :
    0 ≤ (900 : Int) ∧ (900 : Int) < 1000
    ∧ (housesprinkler_schedule_periodic (fun _ => false) (fun _ => 0)
         (fun _ => some 900)
         ⟨true, -1, -1, true, 1000,
          [⟨"u1", "P", false, 0, 0, 6, 0, List.replicate 7 true, 0, 0⟩],
          [⟨some "Q", 500⟩], false⟩ 900 ⟨6, 0, 3, 5, 22⟩).2 = [] :=
  ⟨by decide, by decide,
   C3_rain_delay_amended (fun _ => false) (fun _ => 0) (fun _ => some 900)
     ⟨true, -1, -1, true, 1000,
      [⟨"u1", "P", false, 0, 0, 6, 0, List.replicate 7 true, 0, 0⟩],
      [⟨some "Q", 500⟩], false⟩ 900 ⟨6, 0, 3, 5, 22⟩ (by decide) (by decide)⟩

/-- Helper: the off-commands issued by a cancel-all are exactly one
per control with a pending deadline and a discovered URL, in table
order. -/
theorem housesprinkler_control_cancel_all_offs
    (controls : List SprinklerControl) :
    (housesprinkler_control_cancel_all controls).2
      = (controls.filter
           (fun c => !(c.deadline == 0) && !(c.url == ""))).map
          (fun c => (⟨c.url, c.name⟩ : OffCommand)) := by
  have key : ∀ l : List SprinklerControl,
      l.foldr (fun c acc =>
        (if c.deadline ≠ 0 then (housesprinkler_control_stop c).2 else []) ++ acc) []
      = (l.filter (fun c => !(c.deadline == 0) && !(c.url == ""))).map
          (fun c => (⟨c.url, c.name⟩ : OffCommand)) := by
    intro l
    induction l with
    | nil => rfl
    | cons c rest ih =>
      simp only [List.foldr_cons, List.filter_cons]
      rw [ih]
      by_cases hd : c.deadline = 0
      · simp [housesprinkler_control_stop, hd]
      · by_cases hu : c.url = ""
        · simp [housesprinkler_control_stop, hd, hu]
        · simp [housesprinkler_control_stop, hd, hu]
  exact key controls

/-- C4 counterexample: the claim states that the zone stop operation
mid-pulse empties the queue and issues exactly one off-command to the
control endpoint of the currently active zone. With zone z active
mid-pulse on its relay endpoint and one feed control pending, the
combined stop (sprinkler_zone_off) empties the queue but issues zero
off-commands to z's endpoint, not one: the old zone module never sends
off-commands and the control-cancel step only reaches control-module
points (feeds), among which zones are never declared. -/
theorem C4_zone_off_claim_counterexample :
    (sprinkler_zone_off [⟨0, 300, 40⟩]
       [⟨"pump", "FEED", "http://ctrl", 500, 'a'⟩]).1 = []
    ∧ ((sprinkler_zone_off [⟨0, 300, 40⟩]
         [⟨"pump", "FEED", "http://ctrl", 500, 'a'⟩]).2.2.filter
         (fun o => o.url == "http://r1/relay" && o.point == "z")).length = 0
    ∧ (0 : Nat) ≠ 1 := by
  decide

/-- C4 amended: the zone stop operation empties the activation queue;
no off-command is issued to the active zone's own endpoint (the zone's
pulse expires on its own at the relay); the accompanying control
cancel issues exactly one off-command per control-module point with a
pending deadline and a discovered URL. -/
theorem C4_zone_off_amended (queue : List SprinklerQueueEntry)
    (controls : List SprinklerControl) (zones : List SprinklerZone)
    (az : Nat) (zc : SprinklerZone) (_hz : zones.get? az = some zc)
    (hnames : ∀ c ∈ controls, c.name ≠ zc.name) :
    (sprinkler_zone_off queue controls).1 = []
    ∧ ((sprinkler_zone_off queue controls).2.2.filter
         (fun o => o.point == zc.name)).length = 0
    ∧ (sprinkler_zone_off queue controls).2.2.length
        = (controls.filter
             (fun c => !(c.deadline == 0) && !(c.url == ""))).length := by
  have hoffs : (sprinkler_zone_off queue controls).2.2
      = (controls.filter
           (fun c => !(c.deadline == 0) && !(c.url == ""))).map
          (fun c => (⟨c.url, c.name⟩ : OffCommand)) :=
    housesprinkler_control_cancel_all_offs controls
  refine ⟨rfl, ?_, ?_⟩
  · rw [hoffs, List.length_eq_zero, List.filter_eq_nil_iff]
    intro o ho
    rcases List.mem_map.mp ho with ⟨c, hc, rfl⟩
    have hc2 : c ∈ controls := (List.mem_filter.mp hc).1
    simp [hnames c hc2]
  · rw [hoffs, List.length_map]

/-- C4 witness: concrete instantiation: zone z active on its relay,
queue holding its entry mid-pulse, one pending feed control; the queue
is emptied, z's endpoint receives no off-command, and the single
pending control receives its one off-command. -/
theorem C4_zone_off_amended_witness :
    (sprinkler_zone_off [⟨0, 300, 40⟩]
       [⟨"pump", "FEED", "http://ctrl", 500, 'a'⟩]).1 = []
    ∧ ((sprinkler_zone_off [⟨0, 300, 40⟩]
         [⟨"pump", "FEED", "http://ctrl", 500, 'a'⟩]).2.2.filter
         (fun o => o.point ==
            (⟨"z", 0, 0, false, true, "http://r1/relay"⟩ : SprinklerZone).name)).length = 0
    ∧ (sprinkler_zone_off [⟨0, 300, 40⟩]
         [⟨"pump", "FEED", "http://ctrl", 500, 'a'⟩]).2.2.length
        = ([⟨"pump", "FEED", "http://ctrl", 500, 'a'⟩].filter
             (fun c : SprinklerControl =>
                !(c.deadline == 0) && !(c.url == ""))).length :=
  C4_zone_off_amended [⟨0, 300, 40⟩]
    [⟨"pump", "FEED", "http://ctrl", 500, 'a'⟩]
    [⟨"z", 0, 0, false, true, "http://r1/relay"⟩] 0
    ⟨"z", 0, 0, false, true, "http://r1/relay"⟩ rfl
    (by decide)

/-- Helper: the accumulation loop updates the first entry of the zone
when the queue splits as prefix (without the zone), entry, suffix. -/
theorem zoneQueueAccumulate_split (q1 q2 : List SprinklerQueueEntry)
    (e : SprinklerQueueEntry) (z : Nat) (pulse now : Int)
    (hq1 : ∀ x ∈ q1, x.zone ≠ z) (he : e.zone = z) :
    zoneQueueAccumulate (q1 ++ e :: q2) z pulse now
      = some (q1 ++ { e with
                        runtime := e.runtime + pulse
                        nexton := if e.nexton = 0 then now
                                  else e.nexton } :: q2) := by
  induction q1 with
  | nil =>
    simp only [List.nil_append]
    unfold zoneQueueAccumulate
    rw [if_pos he]
  | cons x rest ih =>
    have hx : x.zone ≠ z := hq1 x (by simp)
    have ih2 := ih (fun y hy => hq1 y (by simp [hy]))
    simp only [List.cons_append]
    unfold zoneQueueAccumulate
    rw [if_neg hx, ih2]
    rfl

/-- Helper: a successful accumulation does not change the sequence of
zone indices held by the queue. -/
theorem zoneQueueAccumulate_map_zone (q q2 : List SprinklerQueueEntry)
    (z : Nat) (pulse now : Int)
    (h : zoneQueueAccumulate q z pulse now = some q2) :
    q2.map (fun x => x.zone) = q.map (fun x => x.zone) := by
  induction q generalizing q2 with
  | nil => simp [zoneQueueAccumulate] at h
  | cons x rest ih =>
    unfold zoneQueueAccumulate at h
    by_cases hx : x.zone = z
    · rw [if_pos hx] at h
      rcases Option.some.inj h with rfl
      simp
    · rw [if_neg hx] at h
      cases hrec : zoneQueueAccumulate rest z pulse now with
      | none => rw [hrec] at h; simp at h
      | some qr =>
        rw [hrec] at h
        rcases Option.some.inj (by simpa using h) with rfl
        simp [ih qr hrec]

/-- Helper: a failed accumulation means no queue entry holds the
zone. -/
theorem zoneQueueAccumulate_none (q : List SprinklerQueueEntry)
    (z : Nat) (pulse now : Int)
    (h : zoneQueueAccumulate q z pulse now = none) :
    ∀ x ∈ q, x.zone ≠ z := by
  induction q with
  | nil => intro x hx; exact absurd hx (List.not_mem_nil x)
  | cons y rest ih =>
    unfold zoneQueueAccumulate at h
    by_cases hy : y.zone = z
    · rw [if_pos hy] at h; exact absurd h (by simp)
    · rw [if_neg hy] at h
      intro x hx
      rcases List.mem_cons.mp hx with rfl | hx2
      · exact hy
      · cases hrec : zoneQueueAccumulate rest z pulse now with
        | some qr => rw [hrec] at h; simp at h
        | none => exact ih hrec x hx2

/-- C5 counterexample: the claim states that for every zone already in
the activation queue, activate(zone, N) increases that entry's
remaining runtime by exactly N. With one configured zone already
queued (runtime 5), the queue is full (QueueNext equals ZonesCount),
so the guard at the head of housesprinkler_zone_activate returns
before the accumulation branch is reached: a further activation by 7
leaves the runtime at 5, not 5 + 7. -/
theorem C5_activate_claim_counterexample :
    housesprinkler_zone_activate [⟨"z", 0, 0, false, true, "http://r1/relay"⟩]
      [⟨0, 5, 10⟩] "z" 7 true 20 = [⟨0, 5, 10⟩]
    ∧ (5 : Int) ≠ 5 + 7 := by
  decide

/-- C5 amended: provided the queue is not full (fewer entries than
configured zones) and the activation is not refused (not a scheduled
activation of a manual-only zone), activating a zone that already has
a queue entry leaves the entry count unchanged and adds exactly the
pulse amount to that (first matching) entry's runtime; and the
activate operation preserves the at-most-one-entry-per-zone
invariant on every input. -/
theorem C5_activate_amended (zones : List SprinklerZone)
    (queue q1 q2 : List SprinklerQueueEntry) (e : SprinklerQueueEntry)
    (name : String) (pulse now : Int) (manual : Bool) (z : Nat)
    (zc : SprinklerZone)
    (hroom : queue.length < zones.length)
    (hz : housesprinkler_zone_search zones name = some z)
    (hzc : zones.get? z = some zc)
    (href : ¬ (zc.manual = true ∧ ¬ manual = true))
    (hsplit : queue = q1 ++ e :: q2)
    (hq1 : ∀ x ∈ q1, x.zone ≠ z) (he : e.zone = z) :
    (housesprinkler_zone_activate zones queue name pulse manual now
       = q1 ++ { e with
                   runtime := e.runtime + pulse
                   nexton := if e.nexton = 0 then now
                             else e.nexton } :: q2)
    ∧ (housesprinkler_zone_activate zones queue name pulse manual now).length
        = queue.length
    ∧ (∀ (zones2 : List SprinklerZone) (queue2 : List SprinklerQueueEntry)
          (name2 : String) (pulse2 now2 : Int) (manual2 : Bool),
         (queue2.map (fun x => x.zone)).Nodup →
         ((housesprinkler_zone_activate zones2 queue2 name2 pulse2 manual2
             now2).map (fun x => x.zone)).Nodup) := by
  have hacc := zoneQueueAccumulate_split q1 q2 e z pulse now hq1 he
  have hmain : housesprinkler_zone_activate zones queue name pulse manual now
      = q1 ++ { e with
                  runtime := e.runtime + pulse
                  nexton := if e.nexton = 0 then now
                            else e.nexton } :: q2 := by
    unfold housesprinkler_zone_activate
    rw [if_pos hroom]
    simp only [hz, hzc]
    rw [if_neg href, hsplit, hacc]
  refine ⟨hmain, ?_, ?_⟩
  · rw [hmain, hsplit]
    simp
  · intro zones2 queue2 name2 pulse2 now2 manual2 hnd
    unfold housesprinkler_zone_activate
    split
    · cases hsearch : housesprinkler_zone_search zones2 name2 with
      | none => exact hnd
      | some z2 =>
        dsimp only
        cases hget : zones2.get? z2 with
        | none => exact hnd
        | some zc2 =>
          dsimp only
          split
          · exact hnd
          · cases haccu : zoneQueueAccumulate queue2 z2 pulse2 now2 with
            | some qr =>
              dsimp only
              rw [zoneQueueAccumulate_map_zone queue2 qr z2 pulse2 now2 haccu]
              exact hnd
            | none =>
              dsimp only
              have hnotin := zoneQueueAccumulate_none queue2 z2 pulse2 now2 haccu
              rw [List.map_append, List.nodup_append]
              refine ⟨hnd, by simp, ?_⟩
              intro a ha hb
              simp only [List.map_cons, List.map_nil, List.mem_singleton] at hb
              rcases List.mem_map.mp ha with ⟨x, hx, rfl⟩
              exact hnotin x hx (by rw [hb])
    · exact hnd

/-- C5 witness: with two configured zones and zone z queued at runtime
5, a further activation by 7 yields runtime 12, leaves the entry count
at 1, and the no-duplicate invariant is preserved on a concrete
activation that appends a new entry. -/
theorem C5_activate_amended_witness :
    housesprinkler_zone_activate
      [⟨"z", 0, 0, false, true, "http://r1/relay"⟩,
       ⟨"w", 0, 0, false, true, "http://r1/relay"⟩]
      [⟨0, 5, 10⟩] "z" 7 true 20 = [⟨0, 12, 10⟩]
    ∧ (housesprinkler_zone_activate
        [⟨"z", 0, 0, false, true, "http://r1/relay"⟩,
         ⟨"w", 0, 0, false, true, "http://r1/relay"⟩]
        [⟨0, 5, 10⟩] "z" 7 true 20).length = 1
    ∧ ((housesprinkler_zone_activate
          [⟨"z", 0, 0, false, true, "http://r1/relay"⟩,
           ⟨"w", 0, 0, false, true, "http://r1/relay"⟩]
          [⟨0, 5, 10⟩] "w" 3 true 20).map (fun x => x.zone)).Nodup := by
  have h := C5_activate_amended
    [⟨"z", 0, 0, false, true, "http://r1/relay"⟩,
     ⟨"w", 0, 0, false, true, "http://r1/relay"⟩]
    [⟨0, 5, 10⟩] [] [] ⟨0, 5, 10⟩ "z" 7 20 true 0
    ⟨"z", 0, 0, false, true, "http://r1/relay"⟩
    (by decide) (by decide) (by decide) (by decide) rfl
    (by intro x hx; exact absurd hx (List.not_mem_nil x)) rfl
  exact ⟨h.1.trans (by decide), h.2.1,
         h.2.2 _ _ "w" 3 20 true (by decide)⟩

/-- Helper: an element failing the predicate survives dropWhile. -/
theorem mem_dropWhile_of_pred_false {α : Type} (p : α → Bool) (l : List α)
    (x : α) (hx : x ∈ l) (hp : p x = false) : x ∈ l.dropWhile p := by
  induction l with
  | nil => exact absurd hx (List.not_mem_nil x)
  | cons y rest ih =>
    rw [List.dropWhile_cons]
    split
    · rcases List.mem_cons.mp hx with rfl | h2
      · simp_all
      · exact ih h2
    · exact hx

/-- Helper: once the selection loop holds a candidate, it returns
one. -/
theorem zoneScheduleSelectGo_some (l : List SprinklerQueueEntry) :
    ∀ (i j : Nat) (t : Int),
      ((zoneScheduleSelectGo l i (some j) t).1).isSome := by
  induction l with
  | nil => intro i j t; rfl
  | cons e rest ih =>
    intro i j t
    unfold zoneScheduleSelectGo
    split
    · exact ih (i + 1) j t
    · split
      · exact ih (i + 1) i e.nexton
      · exact ih (i + 1) j t

/-- Helper: when some entry with remaining runtime and a positive
nexton below the current best time exists, the selection loop returns
a candidate. -/
theorem zoneScheduleSelectGo_exists (l : List SprinklerQueueEntry) :
    ∀ (i : Nat) (best : Option Nat) (t : Int),
      (∃ e ∈ l, e.runtime ≠ 0 ∧ 0 < e.nexton ∧ e.nexton < t) →
      ((zoneScheduleSelectGo l i best t).1).isSome := by
  induction l with
  | nil =>
    intro i best t h
    rcases h with ⟨e, he, _⟩
    exact absurd he (List.not_mem_nil e)
  | cons e0 rest ih =>
    intro i best t h
    unfold zoneScheduleSelectGo
    split
    · rcases h with ⟨e, he, hr, hn⟩
      rcases List.mem_cons.mp he with rfl | h2
      · simp_all
      · exact ih (i + 1) best t ⟨e, h2, hr, hn⟩
    · split
      · exact zoneScheduleSelectGo_some rest (i + 1) i e0.nexton
      · rcases h with ⟨e, he, hr, hn⟩
        rcases List.mem_cons.mp he with rfl | h2
        · simp_all
        · exact ih (i + 1) best t ⟨e, h2, hr, hn⟩

/-- Helper: the selection loop only returns indices below the initial
offset plus the scanned length. -/
theorem zoneScheduleSelectGo_lt (l : List SprinklerQueueEntry) :
    ∀ (i : Nat) (best : Option Nat) (t : Int) (j : Nat),
      (∀ k, best = some k → k < i) →
      (zoneScheduleSelectGo l i best t).1 = some j → j < i + l.length := by
  induction l with
  | nil =>
    intro i best t j hbest h
    have := hbest j h
    simpa using this
  | cons e rest ih =>
    intro i best t j hbest h
    unfold zoneScheduleSelectGo at h
    have hlen : (e :: rest).length = rest.length + 1 := rfl
    rw [hlen]
    split at h
    · have := ih (i + 1) best t j
        (fun k hk => Nat.lt_succ_of_lt (hbest k hk)) h
      omega
    · split at h
      · have := ih (i + 1) (some i) e.nexton j
          (fun k hk => by cases Option.some.inj hk; omega) h
        omega
      · have := ih (i + 1) best t j
          (fun k hk => Nat.lt_succ_of_lt (hbest k hk)) h
        omega

/-- C2 counterexample: the claim states that a queue entry created by
a scheduled (non-manual) activation is dispatched only when the
wall-clock second satisfies now tmod 60 at most 1. With zone z
activated non-manually at time 25, the scheduling step at time 30 (a
second with 30 tmod 60 = 30) dispatches the zone anyway: the old
scheduling step has no top-of-the-minute gate, and queue entries do
not even record whether their activation was manual. -/
theorem C2_dispatch_claim_counterexample :
    housesprinkler_zone_activate [⟨"z", 0, 0, false, true, "http://r1/relay"⟩]
      [] "z" 600 false 25 = [⟨0, 600, 25⟩]
    ∧ (housesprinkler_zone_schedule
        [⟨"z", 0, 0, false, true, "http://r1/relay"⟩] 1
        ⟨[⟨0, 600, 25⟩], 0, none⟩ 30).2 = some (0, 600)
    ∧ ¬ ((30 : Int).tmod 60 ≤ 1) := by
  refine ⟨by decide, ?_, by decide⟩
  rfl

/-- C2 amended: the zone scheduling step applies no top-of-the-minute
gate: whenever no pulse is in flight and the queue holds an entry with
remaining runtime whose positive nexton has arrived, a dispatch is
issued this tick, whatever the wall-clock second. -/
theorem C2_dispatch_amended (zones : List SprinklerZone) (pauseValve : Int)
    (s : ZoneScheduleState) (now : Int) (e : SprinklerQueueEntry)
    (hb : s.zonesBusy < now)
    (hwf : ∀ x ∈ s.queue, x.zone < zones.length)
    (he : e ∈ s.queue) (hr : e.runtime ≠ 0)
    (hn1 : 0 < e.nexton) (hn2 : e.nexton ≤ now) :
    (housesprinkler_zone_schedule zones pauseValve s now).2.isSome := by
  have hpe : (fun x : SprinklerQueueEntry =>
      x.runtime == 0 && decide (x.nexton < now)) e = false := by
    simp [hr]
  have heq : e ∈ zoneQueuePrune s.queue now := by
    unfold zoneQueuePrune
    rw [List.mem_reverse]
    exact mem_dropWhile_of_pred_false _ _ e (List.mem_reverse.mpr he) hpe
  have hsub : ∀ x ∈ zoneQueuePrune s.queue now, x ∈ s.queue := by
    intro x hx
    unfold zoneQueuePrune at hx
    rw [List.mem_reverse] at hx
    exact List.mem_reverse.mp ((List.dropWhile_sublist _).subset hx)
  have hsel : ((zoneScheduleSelect (zoneQueuePrune s.queue now) now)).isSome :=
    zoneScheduleSelectGo_exists _ 0 none (now + 1)
      ⟨e, heq, hr, hn1, by omega⟩
  rcases Option.isSome_iff_exists.mp hsel with ⟨i, hi⟩
  have hilt : i < (zoneQueuePrune s.queue now).length := by
    have := zoneScheduleSelectGo_lt (zoneQueuePrune s.queue now) 0 none
      (now + 1) i (fun k hk => by cases hk) hi
    omega
  have hqi : (zoneQueuePrune s.queue now).get? i
      = some ((zoneQueuePrune s.queue now).get ⟨i, hilt⟩) :=
    List.get?_eq_get hilt
  have hzlt : ((zoneQueuePrune s.queue now).get ⟨i, hilt⟩).zone
      < zones.length :=
    hwf _ (hsub _ (List.get_mem _ _ _))
  have hzget : zones.get? ((zoneQueuePrune s.queue now).get ⟨i, hilt⟩).zone
      = some (zones.get ⟨_, hzlt⟩) :=
    List.get?_eq_get hzlt
  simp only [housesprinkler_zone_schedule]
  rw [if_neg (by omega : ¬ now ≤ s.zonesBusy)]
  simp only [hi, hqi, hzget]
  split <;> simp

/-- C2 amended witness: concrete instantiation: zone z queued with
runtime 600 and nexton 25, the step at time 30 (second 30 of its
minute) dispatches. -/
theorem C2_dispatch_amended_witness :
    (housesprinkler_zone_schedule
      [⟨"z", 0, 0, false, true, "http://r1/relay"⟩] 1
      ⟨[⟨0, 600, 25⟩], 0, none⟩ 30).2.isSome :=
  C2_dispatch_amended [⟨"z", 0, 0, false, true, "http://r1/relay"⟩] 1
    ⟨[⟨0, 600, 25⟩], 0, none⟩ 30 ⟨0, 600, 25⟩ (by decide)
    (by intro x hx; rcases List.mem_singleton.mp hx with rfl; decide)
    (List.mem_singleton.mpr rfl) (by decide) (by decide) (by decide)
/-- Helper: the final iteration of the feed walk visits at most one
feed. -/
theorem feedActivateLast_visits (feeds : List SprinklerFeed) (pulse : Int)
    (name : String) (previous : Option String) :
    (feedActivateLast feeds pulse name previous).visits ≤ 1 := by
  unfold feedActivateLast
  split
  · simp
  · cases hsearch : housesprinkler_feed_search feeds name with
    | none => simp
    | some f => simp

/-- Helper: the final iteration of the feed walk emits no INVALID
INFINITE LOOP event. -/
theorem feedActivateLast_no_loop_event (feeds : List SprinklerFeed)
    (pulse : Int) (name : String) (previous : Option String) :
    ((feedActivateLast feeds pulse name previous).events).all
      (fun ev => !ev.isInfiniteLoop) = true := by
  unfold feedActivateLast
  split
  · simp
  · cases hsearch : housesprinkler_feed_search feeds name with
    | none =>
      cases previous <;> simp [feedUnknownEvent, FeedEvent.isInfiniteLoop]
    | some f => simp

/-- Helper: the feed activation walk visits at most max(fuel, 1)
feeds. -/
theorem feedActivateGo_visits (feeds : List SprinklerFeed) (pulse : Int) :
    ∀ (fuel : Nat) (name : String) (previous : Option String),
      (feedActivateGo feeds pulse fuel name previous).visits
        ≤ max fuel 1 := by
  intro fuel
  induction fuel using Nat.strong_induction_on with
  | _ fuel ih =>
    intro name previous
    rcases fuel with _ | (_ | k)
    · exact le_trans (feedActivateLast_visits feeds pulse name previous)
        (by simp)
    · exact le_trans (feedActivateLast_visits feeds pulse name previous)
        (by simp)
    · unfold feedActivateGo
      split
      · simp
      · cases hsearch : housesprinkler_feed_search feeds name with
        | none => simp
        | some f =>
          dsimp only
          have h := ih (k + 1) (by omega) f.next (some name)
          simp only [Nat.max_eq_left (by omega : 1 ≤ k + 1)] at h
          simp only [Nat.max_eq_left (by omega : 1 ≤ k + 1 + 1)]
          omega

/-- Helper: the feed activation walk never emits the INVALID INFINITE
LOOP IN CHAIN event (that event belongs to the refresh-time detection
pass). -/
theorem feedActivateGo_no_loop_event (feeds : List SprinklerFeed)
    (pulse : Int) :
    ∀ (fuel : Nat) (name : String) (previous : Option String),
      ((feedActivateGo feeds pulse fuel name previous).events).all
        (fun ev => !ev.isInfiniteLoop) = true := by
  intro fuel
  induction fuel using Nat.strong_induction_on with
  | _ fuel ih =>
    intro name previous
    rcases fuel with _ | (_ | k)
    · exact feedActivateLast_no_loop_event feeds pulse name previous
    · exact feedActivateLast_no_loop_event feeds pulse name previous
    · unfold feedActivateGo
      split
      · simp
      · cases hsearch : housesprinkler_feed_search feeds name with
        | none =>
          cases previous <;> simp [feedUnknownEvent, FeedEvent.isInfiniteLoop]
        | some f =>
          dsimp only
          have h := ih (k + 1) (by omega) f.next (some name)
          simpa using h

/-- C8 counterexample: the claim states that feed-chain activation
aborts with a logged INVALID INFINITE LOOP event on overrun. On the
two-feed cycle A to B to A, activating A is cut by the traversal bound
with a non-empty next name remaining (an overrun), after visiting both
feeds, yet no INVALID INFINITE LOOP event is emitted: the activation
loop breaks silently; that event is only emitted by the refresh-time
cycle detection. -/
theorem C8_feed_activation_claim_counterexample :
    (housesprinkler_feed_activate
      [⟨"A", "B", false, 0⟩, ⟨"B", "A", false, 0⟩] "A" 60).overrun = true
    ∧ ((housesprinkler_feed_activate
        [⟨"A", "B", false, 0⟩, ⟨"B", "A", false, 0⟩] "A" 60).events).all
        (fun ev => !ev.isInfiniteLoop) = true
    ∧ (housesprinkler_feed_activate
        [⟨"A", "B", false, 0⟩, ⟨"B", "A", false, 0⟩] "A" 60).visits = 2
    ∧ housesprinkler_feed_detect_loops
        [⟨"A", "B", false, 0⟩, ⟨"B", "A", false, 0⟩]
        = [.infiniteLoop "A", .infiniteLoop "B"] := by
  decide

/-- C8 amended: for every starting feed name and every feed table,
including tables whose next links form a cycle, feed-chain activation
visits at most as many feeds as the table holds and terminates,
breaking silently on overrun (it never emits the INVALID INFINITE LOOP
event; the refresh-time cycle detection emits that event instead). -/
theorem C8_feed_activation_amended (feeds : List SprinklerFeed)
    (name : String) (pulse : Int) :
    (housesprinkler_feed_activate feeds name pulse).visits ≤ feeds.length
    ∧ ((housesprinkler_feed_activate feeds name pulse).events).all
        (fun ev => !ev.isInfiniteLoop) = true := by
  constructor
  · cases hf : feeds with
    | nil =>
      show (feedActivateLast [] pulse name none).visits ≤ 0
      unfold feedActivateLast
      split
      · simp
      · cases hsearch : housesprinkler_feed_search [] name with
        | none => simp
        | some f => simp [housesprinkler_feed_search] at hsearch
    | cons f rest =>
      have h := feedActivateGo_visits (f :: rest) pulse
        (f :: rest).length name none
      unfold housesprinkler_feed_activate
      have hmax : max (f :: rest).length 1 = (f :: rest).length := by
        simp [List.length_cons]
      rw [hmax] at h
      exact h
  · exact feedActivateGo_no_loop_event feeds pulse feeds.length name none
